import Mathlib

/-!
Verification of the transcript-cache core of the YouTube tutor backend
(src/main.py), as a shallow embedding in Lean 4.

The process-wide dictionary `transcript_cache` is modelled as an
association list with unique-key insert semantics; the external
transcript fetcher (`YouTubeTranscriptApi.get_transcript`, which either
returns a list of segments or raises) is a parameter of type
`String → Option (List TranscriptEntry)` where `none` models the raised
exception caught by the surrounding `except` block; the LLM client
(`anthropic_client.messages.create`, which returns a message or raises)
is a parameter of type `String → Except String String` carrying the
stringified exception on failure.
-/

namespace TutorBackend

/-- A single segment returned by the transcript source: free text plus a
start-time offset; the offset is discarded during concatenation
(only `entry['text']` is read by `get_cached_transcript`). -/
structure TranscriptEntry where
  text : String
  start : Nat
  deriving Repr, DecidableEq

/-- The in-memory `transcript_cache` dictionary, keyed by video id. -/
abbrev Cache := List (String × String)

/-- Dictionary membership test / value read: `video_id in transcript_cache`
and `transcript_cache[video_id]`. -/
def cacheLookup : Cache → String → Option String
  | [], _ => none
  | (k, v) :: rest, id => if k = id then some v else cacheLookup rest id

/-- Dictionary assignment `transcript_cache[video_id] = full_transcript`:
replace the value if the key is present, otherwise append the new entry. -/
def cacheInsert : Cache → String → String → Cache
  | [], id, v => [(id, v)]
  | (k, w) :: rest, id, v =>
    if k = id then (id, v) :: rest else (k, w) :: cacheInsert rest id v

/-- `get_cached_transcript(video_id)` from src/main.py lines 43-64.
`fetch` stands for `YouTubeTranscriptApi.get_transcript`; `none` is the
exception path caught by the `except Exception` block (which returns
`None` and leaves the cache untouched).  The result is
(returned transcript or `None`, cache after the call, number of fetcher
invocations performed by this call). -/
def get_cached_transcript (fetch : String → Option (List TranscriptEntry))
    (cache : Cache) (video_id : String) : Option String × Cache × Nat :=
  match cacheLookup cache video_id with
  | some t => (some t, cache, 0)
  | none =>
    match fetch video_id with
    | some transcript_list =>
      let full_transcript :=
        String.intercalate " " (transcript_list.map TranscriptEntry.text)
      (some full_transcript, cacheInsert cache video_id full_transcript, 1)
    | none => (none, cache, 1)

/-- The body returned by `cache_status` (src/main.py lines 157-167). -/
structure CacheStatus where
  cached_videos : Nat
  video_ids : List String
  total_cache_size : Nat
  deriving Repr, DecidableEq

/-- `cache_status()` handler: `cached_videos = len(keys)`,
`video_ids = list(transcript_cache.keys())`,
`total_cache_size = sum(len(t) for t in values)`. -/
def cache_status (cache : Cache) : CacheStatus :=
  let cached_videos := cache.map Prod.fst
  { cached_videos := cached_videos.length
    video_ids := cached_videos
    total_cache_size := (cache.map (fun e => e.2.length)).sum }

/-- `clear_cache()` handler (src/main.py lines 169-177): records the prior
entry count `cache_size = len(transcript_cache)`, empties the dictionary,
and returns the count (rendered inside the response message).  Result is
(prior entry count, response message, cache after the call). -/
def clear_cache (cache : Cache) : Nat × String × Cache :=
  let cache_size := cache.length
  (cache_size,
   "Cache cleared. Removed " ++ toString cache_size ++ " cached transcripts.",
   [])

/-- Python string slicing `s[:n]` over code points. -/
def str_take (s : String) (n : Nat) : String := String.mk (s.data.take n)

/-- The `/api/tutor/ask` request body after `data.get` defaulting:
`question = data.get('question', '')`, `videoTitle = data.get('videoTitle', '')`,
`currentTime = data.get('currentTime', 0)`, `videoId = data.get('videoId', '')`. -/
structure AskRequest where
  question : String
  videoTitle : String
  currentTime : Nat
  videoId : String
  deriving Repr, DecidableEq

/-- The three possible JSON bodies returned by the `ask_tutor` handler. -/
inductive AskResult where
  | success (answer : String) (videoTitle : String) (currentTime : Nat)
      (cached : Bool)
  | validationError (msg : String)
  | upstreamError (msg : String)
  deriving Repr, DecidableEq

/-- The HTTP status code attached to each `ask_tutor` body:
200 for the success body, 400 for the validation error, 500 for the
catch-all error branch. -/
def AskResult.statusCode : AskResult → Nat
  | .success _ _ _ _ => 200
  | .validationError _ => 400
  | .upstreamError _ => 500

/-- Observable outcome of one `ask_tutor` call: the JSON body, the cache
after the call, how many times the LLM client was invoked, and the user
message content passed to it when it was invoked. -/
structure AskOutcome where
  result : AskResult
  cache : Cache
  llmCalls : Nat
  llmInput : Option String
  deriving Repr, DecidableEq

/-- `ask_tutor()` handler (src/main.py lines 75-129).  `llm` stands for the
`anthropic_client.messages.create` call (together with the
`message.content[0].text` extraction): it receives the single user-turn
content and yields the answer text, or `Except.error` carrying the
stringified exception, which the handler's catch-all turns into the
HTTP 500 body `"Error processing request: " + str(e)`. -/
def ask_tutor (fetch : String → Option (List TranscriptEntry))
    (llm : String → Except String String) (cache : Cache)
    (data : AskRequest) : AskOutcome :=
  if data.question = "" then
    { result := .validationError "Question is required"
      cache := cache, llmCalls := 0, llmInput := none }
  else
    let context := "Video: " ++ data.videoTitle ++ "\nCurrent time: "
      ++ toString data.currentTime ++ "s"
    let fetched : Option String × Cache :=
      if data.videoId = "" then (none, cache)
      else
        let r := get_cached_transcript fetch cache data.videoId
        (r.1, r.2.1)
    let video_transcript := fetched.1
    let cache1 := fetched.2
    let context1 :=
      match video_transcript with
      | some t =>
        if t = "" then context
        else context ++ "\nTranscript: " ++ str_take t 3000 ++ "..."
      | none => context
    let userContent := "Context: " ++ context1 ++ "\n\nQuestion: "
      ++ data.question
    match llm userContent with
    | .ok answer =>
      { result := .success answer data.videoTitle data.currentTime
          (if data.videoId = "" then false
           else (cacheLookup cache1 data.videoId).isSome)
        cache := cache1, llmCalls := 1, llmInput := some userContent }
    | .error e =>
      { result := .upstreamError ("Error processing request: " ++ e)
        cache := cache1, llmCalls := 1, llmInput := some userContent }

/-- The possible JSON bodies returned by the `/api/tutor/transcript`
handler. -/
inductive TranscriptResult where
  | success (msg : String) (length : Nat)
  | validationError (msg : String)
  | notFound (msg : String)
  | upstreamError (msg : String)
  deriving Repr, DecidableEq

/-- HTTP status codes of the transcript endpoint bodies. -/
def TranscriptResult.statusCode : TranscriptResult → Nat
  | .success _ _ => 200
  | .validationError _ => 400
  | .notFound _ => 404
  | .upstreamError _ => 500

/-- `get_transcript()` handler (src/main.py lines 131-155): validates the
video id, delegates to `get_cached_transcript`, returns 404 when that
helper yields `None` (i.e. when the fetch raised). -/
def get_transcript (fetch : String → Option (List TranscriptEntry))
    (cache : Cache) (videoId : String) : TranscriptResult × Cache :=
  if videoId = "" then (.validationError "Video ID is required", cache)
  else
    let r := get_cached_transcript fetch cache videoId
    match r.1 with
    | some transcript =>
      (.success "Transcript cached successfully" transcript.length, r.2.1)
    | none => (.notFound "No transcript available for this video", r.2.1)

/-! The video-id extractor (src/main.py lines 29-41), embedding Python
`re.search` for the three concrete patterns
`(?:v=|\/)([0-9A-Za-z_-]{11}).*`, `(?:embed\/)([0-9A-Za-z_-]{11})` and
`(?:watch\?v=)([0-9A-Za-z_-]{11})`: scan positions left to right; at
each position try the literal alternatives in order, then require
exactly 11 characters of the class `[0-9A-Za-z_-]` as the captured
group (the trailing `.*` always succeeds and binds nothing). -/

/-- Membership in the character class `[0-9A-Za-z_-]` (ASCII only, as in
Python `re`). -/
def isTokenChar (c : Char) : Bool :=
  c.isDigit || c.isAlpha || c = '_' || c = '-'

/-- Capture `([0-9A-Za-z_-]{11})`: exactly 11 class characters at the
front of the remaining input. -/
def grab11 (cs : List Char) : Option String :=
  let t := cs.take 11
  if t.length = 11 && t.all isTokenChar then some (String.mk t) else none

/-- Match a literal at the front of the input, returning the rest. -/
def dropLit : List Char → List Char → Option (List Char)
  | [], cs => some cs
  | _ :: _, [] => none
  | p :: ps, c :: cs => if c = p then dropLit ps cs else none

/-- Try each literal alternative in order at the current position,
followed by the 11-character capture (regex alternation with
backtracking at a fixed position). -/
def tryHere (alts : List (List Char)) (cs : List Char) : Option String :=
  match alts with
  | [] => none
  | a :: rest =>
    match dropLit a cs with
    | some tail =>
      match grab11 tail with
      | some tok => some tok
      | none => tryHere rest cs
    | none => tryHere rest cs

/-- `re.search`: try the pattern at every position, leftmost match wins. -/
def searchFrom (alts : List (List Char)) : List Char → Option String
  | [] => tryHere alts []
  | c :: cs =>
    match tryHere alts (c :: cs) with
    | some tok => some tok
    | none => searchFrom alts cs

/-- First pattern `(?:v=|\/)([0-9A-Za-z_-]{11}).*`. -/
def pattern1 (url : String) : Option String :=
  searchFrom [['v', '='], ['/']] url.data

/-- Second pattern `(?:embed\/)([0-9A-Za-z_-]{11})`. -/
def pattern2 (url : String) : Option String :=
  searchFrom [['e', 'm', 'b', 'e', 'd', '/']] url.data

/-- Third pattern `(?:watch\?v=)([0-9A-Za-z_-]{11})`. -/
def pattern3 (url : String) : Option String :=
  searchFrom [['w', 'a', 't', 'c', 'h', '?', 'v', '=']] url.data

/-- `extract_video_id(url)` (src/main.py lines 29-41): the patterns are
tried in source order and the first match's captured group is returned;
`None` when no pattern matches. -/
def extract_video_id (url : String) : Option String :=
  match pattern1 url with
  | some tok => some tok
  | none =>
    match pattern2 url with
    | some tok => some tok
    | none => pattern3 url

/-! Helper lemmas about the association-list dictionary. -/

theorem cacheLookup_cacheInsert_self (c : Cache) (id v : String) :
    cacheLookup (cacheInsert c id v) id = some v := by
  induction c with
  | nil => simp [cacheInsert, cacheLookup]
  | cons hd tl ih =>
    obtain ⟨k, w⟩ := hd
    by_cases hk : k = id
    · simp [cacheInsert, cacheLookup, hk]
    · simp [cacheInsert, cacheLookup, hk, ih]

theorem cacheLookup_none_not_mem {c : Cache} {id : String}
    (h : cacheLookup c id = none) : id ∉ c.map Prod.fst := by
  induction c with
  | nil => simp
  | cons hd tl ih =>
    obtain ⟨k, w⟩ := hd
    by_cases hk : k = id
    · simp [cacheLookup, hk] at h
    · simp [cacheLookup, hk] at h
      intro hmem
      simp only [List.map_cons] at hmem
      rcases List.mem_cons.mp hmem with h1 | h2
      · exact hk h1.symm
      · exact ih h h2

theorem mem_map_fst_iff (c : Cache) (id : String) :
    id ∈ c.map Prod.fst ↔ ∃ t, (id, t) ∈ c := by
  constructor
  · intro h
    rcases List.mem_map.mp h with ⟨⟨k, t⟩, hmem, hk⟩
    subst hk
    exact ⟨t, hmem⟩
  · rintro ⟨t, ht⟩
    exact List.mem_map.mpr ⟨(id, t), ht, rfl⟩

theorem lookup_after_get (fetch : String → Option (List TranscriptEntry))
    (cache : Cache) (id : String) :
    (cacheLookup (get_cached_transcript fetch cache id).2.1 id).isSome
      = ((get_cached_transcript fetch cache id).1).isSome := by
  unfold get_cached_transcript
  cases h : cacheLookup cache id with
  | some t => simp [h]
  | none =>
    cases hf : fetch id with
    | some es => simp [cacheLookup_cacheInsert_self]
    | none => simp [h]

/-! The claims. -/

/-- Claim C1: for every video id whose fetcher succeeds, two consecutive
`get_cached_transcript` calls return byte-identical transcripts, the
second call performs no fetch and leaves the cache unchanged, and a
cache hit returns the stored transcript immediately with no fetch. -/
theorem cache_idempotent (fetch : String → Option (List TranscriptEntry))
    (cache : Cache) (id : String) (es : List TranscriptEntry)
    (hf : fetch id = some es) :
    (∃ t, (get_cached_transcript fetch cache id).1 = some t ∧
        (get_cached_transcript fetch
            (get_cached_transcript fetch cache id).2.1 id).1 = some t) ∧
    (get_cached_transcript fetch
        (get_cached_transcript fetch cache id).2.1 id).2.2 = 0 ∧
    (get_cached_transcript fetch
        (get_cached_transcript fetch cache id).2.1 id).2.1
      = (get_cached_transcript fetch cache id).2.1 ∧
    (∀ t0, cacheLookup cache id = some t0 →
      get_cached_transcript fetch cache id = (some t0, cache, 0)) := by
  cases h : cacheLookup cache id with
  | some t0 =>
    refine ⟨⟨t0, ?_, ?_⟩, ?_, ?_, ?_⟩ <;>
      simp [get_cached_transcript, h]
  | none =>
    refine ⟨⟨String.intercalate " " (es.map TranscriptEntry.text), ?_, ?_⟩,
        ?_, ?_, ?_⟩ <;>
      simp [get_cached_transcript, h, hf, cacheLookup_cacheInsert_self]

/-- Claim C1 witness: a concrete successful fetcher on an empty cache. -/
theorem cache_idempotent_witness :
    (∃ t,
      (get_cached_transcript (fun _ => some [⟨"hello", 0⟩]) [] "x").1 = some t ∧
      (get_cached_transcript (fun _ => some [⟨"hello", 0⟩])
          (get_cached_transcript (fun _ => some [⟨"hello", 0⟩]) [] "x").2.1
          "x").1 = some t) ∧
    (get_cached_transcript (fun _ => some [⟨"hello", 0⟩])
        (get_cached_transcript (fun _ => some [⟨"hello", 0⟩]) [] "x").2.1
        "x").2.2 = 0 ∧
    (get_cached_transcript (fun _ => some [⟨"hello", 0⟩])
        (get_cached_transcript (fun _ => some [⟨"hello", 0⟩]) [] "x").2.1
        "x").2.1
      = (get_cached_transcript (fun _ => some [⟨"hello", 0⟩]) [] "x").2.1 ∧
    (∀ t0, cacheLookup [] "x" = some t0 →
      get_cached_transcript (fun _ => some [⟨"hello", 0⟩]) [] "x"
        = (some t0, [], 0)) :=
  cache_idempotent (fun _ => some [⟨"hello", 0⟩]) [] "x" [⟨"hello", 0⟩] rfl

/-- Claim C2: when the fetch fails for an uncached id, the call returns
`None`, the cache is unchanged, the id does not appear in
`status().video_ids`, and a second call re-invokes the fetcher. -/
theorem negative_not_cached (fetch : String → Option (List TranscriptEntry))
    (cache : Cache) (id : String)
    (hf : fetch id = none) (hm : cacheLookup cache id = none) :
    get_cached_transcript fetch cache id = (none, cache, 1) ∧
    id ∉ (cache_status (get_cached_transcript fetch cache id).2.1).video_ids ∧
    get_cached_transcript fetch
        (get_cached_transcript fetch cache id).2.1 id = (none, cache, 1) := by
  have h1 : get_cached_transcript fetch cache id = (none, cache, 1) := by
    simp [get_cached_transcript, hm, hf]
  refine ⟨h1, ?_, ?_⟩
  · rw [h1]
    exact cacheLookup_none_not_mem hm
  · rw [h1]
    exact h1

/-- Claim C2 witness: a concrete failing fetcher on a one-entry cache. -/
theorem negative_not_cached_witness :
    get_cached_transcript (fun _ => none) [("y", "t")] "x"
      = (none, [("y", "t")], 1) ∧
    "x" ∉ (cache_status
        (get_cached_transcript (fun _ => none) [("y", "t")] "x").2.1).video_ids ∧
    get_cached_transcript (fun _ => none)
        (get_cached_transcript (fun _ => none) [("y", "t")] "x").2.1 "x"
      = (none, [("y", "t")], 1) :=
  negative_not_cached (fun _ => none) [("y", "t")] "x" rfl (by decide)

/-- Claim C4: an empty (or missing, hence defaulted-to-empty) question is
rejected with the HTTP 400 body and the LLM client is never invoked. -/
theorem missing_question_rejected
    (fetch : String → Option (List TranscriptEntry))
    (llm : String → Except String String) (cache : Cache) (data : AskRequest)
    (hq : data.question = "") :
    ask_tutor fetch llm cache data
      = ⟨.validationError "Question is required", cache, 0, none⟩ ∧
    (ask_tutor fetch llm cache data).llmCalls = 0 ∧
    (ask_tutor fetch llm cache data).result.statusCode = 400 := by
  refine ⟨?_, ?_, ?_⟩ <;> simp [ask_tutor, hq, AskResult.statusCode]

/-- Claim C4 witness: the concrete empty-body request. -/
theorem missing_question_rejected_witness :
    ask_tutor (fun _ => none) (fun _ => Except.ok "A") [] ⟨"", "", 0, ""⟩
      = ⟨.validationError "Question is required", [], 0, none⟩ ∧
    (ask_tutor (fun _ => none) (fun _ => Except.ok "A") []
        ⟨"", "", 0, ""⟩).llmCalls = 0 ∧
    (ask_tutor (fun _ => none) (fun _ => Except.ok "A") []
        ⟨"", "", 0, ""⟩).result.statusCode = 400 :=
  missing_question_rejected (fun _ => none) (fun _ => Except.ok "A") []
    ⟨"", "", 0, ""⟩ rfl

/-- Claim C5: `clear_cache` returns the prior entry count (rendered into
its message), empties the mapping, the status count afterwards is 0, and
a subsequent `get_cached_transcript` for any id invokes the fetcher. -/
theorem clear_resets_cardinality (cache : Cache)
    (fetch : String → Option (List TranscriptEntry)) (id : String) :
    (clear_cache cache).1 = (cache_status cache).cached_videos ∧
    (clear_cache cache).2.1
      = "Cache cleared. Removed " ++ toString (cache_status cache).cached_videos
          ++ " cached transcripts." ∧
    (clear_cache cache).2.2 = [] ∧
    (cache_status (clear_cache cache).2.2).cached_videos = 0 ∧
    (get_cached_transcript fetch (clear_cache cache).2.2 id).2.2 = 1 := by
  refine ⟨?_, ?_, rfl, rfl, ?_⟩
  · simp [clear_cache, cache_status]
  · simp [clear_cache, cache_status]
  · show (get_cached_transcript fetch [] id).2.2 = 1
    cases hf : fetch id <;> simp [get_cached_transcript, cacheLookup, hf]

/-- Claim C6: `cache_status` is a pure read-only snapshot: an id appears
in `video_ids` exactly when it is a key of the mapping, `cached_videos`
is the number of listed ids (equal to the number of entries), and
`total_cache_size` is the sum of the stored transcript lengths. -/
theorem status_read_only_snapshot (c : Cache) (id : String) :
    ((id ∈ (cache_status c).video_ids) ↔ ∃ t, (id, t) ∈ c) ∧
    (cache_status c).cached_videos = (cache_status c).video_ids.length ∧
    (cache_status c).cached_videos = c.length ∧
    (cache_status c).total_cache_size
      = (c.map (fun e => e.2.length)).sum := by
  refine ⟨mem_map_fst_iff c id, rfl, ?_, rfl⟩
  simp [cache_status]

/-- Claim C7: a successful fetch for an uncached id stores and returns
the space-join of the fetched entries' text fields, in source order, and
the stored value is found under the id in the resulting cache. -/
theorem fetch_success_flattens
    (fetch : String → Option (List TranscriptEntry)) (cache : Cache)
    (id : String) (es : List TranscriptEntry)
    (hm : cacheLookup cache id = none) (hf : fetch id = some es) :
    get_cached_transcript fetch cache id
      = (some (String.intercalate " " (es.map TranscriptEntry.text)),
         cacheInsert cache id
           (String.intercalate " " (es.map TranscriptEntry.text)), 1) ∧
    cacheLookup (get_cached_transcript fetch cache id).2.1 id
      = some (String.intercalate " " (es.map TranscriptEntry.text)) := by
  have h1 : get_cached_transcript fetch cache id
      = (some (String.intercalate " " (es.map TranscriptEntry.text)),
         cacheInsert cache id
           (String.intercalate " " (es.map TranscriptEntry.text)), 1) := by
    simp [get_cached_transcript, hm, hf]
  exact ⟨h1, by rw [h1]; exact cacheLookup_cacheInsert_self _ _ _⟩

/-- Claim C7 witness: two concrete entries joined by a single space. -/
theorem fetch_success_flattens_witness :
    get_cached_transcript (fun _ => some [⟨"hello", 0⟩, ⟨"world", 2⟩]) [] "x"
      = (some (String.intercalate " "
            (([⟨"hello", 0⟩, ⟨"world", 2⟩] : List TranscriptEntry).map
              TranscriptEntry.text)),
         cacheInsert [] "x" (String.intercalate " "
            (([⟨"hello", 0⟩, ⟨"world", 2⟩] : List TranscriptEntry).map
              TranscriptEntry.text)), 1) ∧
    cacheLookup
        (get_cached_transcript (fun _ => some [⟨"hello", 0⟩, ⟨"world", 2⟩])
          [] "x").2.1 "x"
      = some (String.intercalate " "
          (([⟨"hello", 0⟩, ⟨"world", 2⟩] : List TranscriptEntry).map
            TranscriptEntry.text)) :=
  fetch_success_flattens (fun _ => some [⟨"hello", 0⟩, ⟨"world", 2⟩]) [] "x"
    [⟨"hello", 0⟩, ⟨"world", 2⟩] rfl rfl

/-- Claim C3: when the fetched transcript exceeds 3000 characters, the
user content handed to the LLM embeds exactly the first 3000 characters
of it followed by the literal suffix, never the full transcript. -/
theorem truncation_bound (fetch : String → Option (List TranscriptEntry))
    (llm : String → Except String String) (cache : Cache) (data : AskRequest)
    (t : String)
    (hq : data.question ≠ "") (hv : data.videoId ≠ "")
    (ht : (get_cached_transcript fetch cache data.videoId).1 = some t)
    (hlen : 3000 < t.length) :
    (ask_tutor fetch llm cache data).llmInput
      = some ("Context: "
          ++ ("Video: " ++ data.videoTitle ++ "\nCurrent time: "
              ++ toString data.currentTime ++ "s" ++ "\nTranscript: "
              ++ str_take t 3000 ++ "...")
          ++ "\n\nQuestion: " ++ data.question) ∧
    (str_take t 3000).length = 3000 := by
  have hne : t ≠ "" := by
    intro h
    subst h
    have h0 : ("" : String).length = 0 := rfl
    omega
  constructor
  · simp only [ask_tutor, if_neg hq, if_neg hv, ht, if_neg hne]
    split <;> rfl
  · have hdata : 3000 < t.data.length := hlen
    show (String.mk (t.data.take 3000)).length = 3000
    have h2 : (String.mk (t.data.take 3000)).length
        = (t.data.take 3000).length := rfl
    rw [h2, List.length_take]
    omega

/-- Claim C3 witness: a 3001-character transcript already in the cache. -/
theorem truncation_bound_witness :
    (ask_tutor (fun _ => none) (fun _ => Except.ok "A")
        [("v", String.mk (List.replicate 3001 'a'))]
        ⟨"q", "T", 5, "v"⟩).llmInput
      = some ("Context: "
          ++ ("Video: " ++ "T" ++ "\nCurrent time: " ++ toString 5 ++ "s"
              ++ "\nTranscript: "
              ++ str_take (String.mk (List.replicate 3001 'a')) 3000 ++ "...")
          ++ "\n\nQuestion: " ++ "q") ∧
    (str_take (String.mk (List.replicate 3001 'a')) 3000).length = 3000 :=
  truncation_bound (fun _ => none) (fun _ => Except.ok "A")
    [("v", String.mk (List.replicate 3001 'a'))] ⟨"q", "T", 5, "v"⟩
    (String.mk (List.replicate 3001 'a'))
    (by decide) (by decide)
    (by simp [get_cached_transcript, cacheLookup])
    (by
      show 3000 < (List.replicate 3001 'a').length
      rw [List.length_replicate]
      omega)

/-! Helper lemmas for the extractor: every captured group has exactly
11 characters. -/

theorem grab11_length {cs : List Char} {tok : String}
    (h : grab11 cs = some tok) : tok.length = 11 := by
  simp only [grab11] at h
  split at h
  · rename_i hc
    obtain rfl : String.mk (cs.take 11) = tok := by injection h
    have h1 : (cs.take 11).length = 11 :=
      of_decide_eq_true ((Bool.and_eq_true _ _).mp hc).1
    exact h1
  · exact absurd h (by simp)

theorem tryHere_length :
    ∀ (alts : List (List Char)) (cs : List Char) {tok : String},
      tryHere alts cs = some tok → tok.length = 11 := by
  intro alts
  induction alts with
  | nil =>
    intro cs tok h
    simp [tryHere] at h
  | cons a rest ih =>
    intro cs tok h
    cases hd : dropLit a cs with
    | none =>
      simp only [tryHere, hd] at h
      exact ih cs h
    | some tail =>
      cases hg : grab11 tail with
      | none =>
        simp only [tryHere, hd, hg] at h
        exact ih cs h
      | some tk =>
        simp only [tryHere, hd, hg] at h
        obtain rfl : tk = tok := by injection h
        exact grab11_length hg

theorem searchFrom_length :
    ∀ (alts : List (List Char)) (cs : List Char) {tok : String},
      searchFrom alts cs = some tok → tok.length = 11 := by
  intro alts cs
  induction cs with
  | nil =>
    intro tok h
    simp only [searchFrom] at h
    exact tryHere_length alts [] h
  | cons c rest ih =>
    intro tok h
    cases hh : tryHere alts (c :: rest) with
    | some tk =>
      simp only [searchFrom, hh] at h
      obtain rfl : tk = tok := by injection h
      exact tryHere_length alts (c :: rest) hh
    | none =>
      simp only [searchFrom, hh] at h
      exact ih h

theorem extract_length {url : String} {tok : String}
    (h : extract_video_id url = some tok) : tok.length = 11 := by
  unfold extract_video_id at h
  cases h1 : pattern1 url with
  | some tk =>
    rw [h1] at h
    obtain rfl : tk = tok := by injection h
    exact searchFrom_length _ _ h1
  | none =>
    rw [h1] at h
    cases h2 : pattern2 url with
    | some tk =>
      rw [h2] at h
      obtain rfl : tk = tok := by injection h
      exact searchFrom_length _ _ h2
    | none =>
      rw [h2] at h
      exact searchFrom_length _ _ h

/-- Claim C8: the two well-formed URLs both yield the expected id, a
non-URL string yields `None`; in general the first matching pattern wins
(a first-pattern match decides the result) and every extracted token has
exactly 11 characters. -/
theorem extract_video_id_spec :
    extract_video_id "https://www.youtube.com/watch?v=dQw4w9WgXcQ"
      = some "dQw4w9WgXcQ" ∧
    extract_video_id "https://youtu.be/dQw4w9WgXcQ" = some "dQw4w9WgXcQ" ∧
    extract_video_id "not a url" = none ∧
    (∀ url tok, pattern1 url = some tok → extract_video_id url = some tok) ∧
    (∀ url tok, extract_video_id url = some tok → tok.length = 11) := by
  refine ⟨by decide, by decide, by decide, ?_, ?_⟩
  · intro url tok h
    simp [extract_video_id, h]
  · intro url tok h
    exact extract_length h

/-- Claim C8 witness: a first-pattern match on an embed-style URL decides
the extractor's result. -/
theorem extract_video_id_spec_witness :
    pattern1 "https://www.youtube.com/embed/dQw4w9WgXcQ"
      = some "dQw4w9WgXcQ" ∧
    extract_video_id "https://www.youtube.com/embed/dQw4w9WgXcQ"
      = some "dQw4w9WgXcQ" ∧
    ("dQw4w9WgXcQ" : String).length = 11 :=
  ⟨by decide,
   extract_video_id_spec.2.2.2.1 "https://www.youtube.com/embed/dQw4w9WgXcQ"
     "dQw4w9WgXcQ" (by decide),
   extract_video_id_spec.2.2.2.2 "https://www.youtube.com/embed/dQw4w9WgXcQ"
     "dQw4w9WgXcQ"
     (extract_video_id_spec.2.2.2.1 "https://www.youtube.com/embed/dQw4w9WgXcQ"
       "dQw4w9WgXcQ" (by decide))⟩

/-- Claim C9 counterexample: a transcript-fetch exception (modelled by
the fetcher yielding `none`, the path the `except` block in
`get_cached_transcript` turns into `None`) does NOT surface as HTTP 500:
with a working LLM the ask handler answers with HTTP 200. -/
theorem error_boundary_counterexample :
    ((ask_tutor (fun _ => none) (fun _ => Except.ok "An answer") []
        ⟨"What is this about?", "Demo", 0, "abc12345678"⟩).result.statusCode
      = 200) ∧
    ¬ ((ask_tutor (fun _ => none) (fun _ => Except.ok "An answer") []
        ⟨"What is this about?", "Demo", 0, "abc12345678"⟩).result.statusCode
      = 500) := by
  constructor
  · decide
  · decide

/-- Claim C9 amended: no error escapes a handler, and an LLM exception is
surfaced by the ask handler's catch-all as HTTP 500 with the stringified
cause; a transcript-fetch exception, by contrast, never reaches the
request boundary — the ask handler proceeds without transcript context
(HTTP 200 when the LLM succeeds) and the transcript endpoint maps it to
HTTP 404. -/
theorem error_boundary_amended
    (fetch : String → Option (List TranscriptEntry)) (cache : Cache)
    (data : AskRequest) (e : String) (ans : String) (id : String)
    (hq : data.question ≠ "") :
    ((ask_tutor fetch (fun _ => Except.error e) cache data).result
        = .upstreamError ("Error processing request: " ++ e) ∧
      (ask_tutor fetch (fun _ => Except.error e) cache data).result.statusCode
        = 500) ∧
    (data.videoId ≠ "" → fetch data.videoId = none →
      cacheLookup cache data.videoId = none →
      (ask_tutor fetch (fun _ => Except.ok ans) cache data).result
          = .success ans data.videoTitle data.currentTime false ∧
      (ask_tutor fetch (fun _ => Except.ok ans) cache data).result.statusCode
        = 200) ∧
    (id ≠ "" → fetch id = none → cacheLookup cache id = none →
      (get_transcript fetch cache id).1
          = .notFound "No transcript available for this video" ∧
      (get_transcript fetch cache id).1.statusCode = 404) := by
  refine ⟨⟨?_, ?_⟩, ?_, ?_⟩
  · simp [ask_tutor, hq]
  · simp [ask_tutor, hq, AskResult.statusCode]
  · intro hv hf hm
    have hg : get_cached_transcript fetch cache data.videoId
        = (none, cache, 1) := by
      simp [get_cached_transcript, hm, hf]
    constructor
    · simp [ask_tutor, hq, hv, hg, hm]
    · simp [ask_tutor, hq, hv, hg, hm, AskResult.statusCode]
  · intro hid hf hm
    have hg : get_cached_transcript fetch cache id = (none, cache, 1) := by
      simp [get_cached_transcript, hm, hf]
    constructor
    · simp [get_transcript, hid, hg]
    · simp [get_transcript, hid, hg, TranscriptResult.statusCode]

/-- Claim C9 amended witness: concrete LLM failure (500), concrete fetch
failure under a working LLM (200), and the transcript endpoint on a
fetch failure (404). -/
theorem error_boundary_amended_witness :
    ((ask_tutor (fun _ => none) (fun _ => Except.error "boom") []
        ⟨"q", "T", 0, "vid"⟩).result
      = .upstreamError ("Error processing request: " ++ "boom")) ∧
    ((ask_tutor (fun _ => none) (fun _ => Except.ok "A") []
        ⟨"q", "T", 0, "vid"⟩).result.statusCode = 200) ∧
    ((get_transcript (fun _ => none) [] "vid").1.statusCode = 404) :=
  ⟨(error_boundary_amended (fun _ => none) [] ⟨"q", "T", 0, "vid"⟩
      "boom" "A" "vid" (by decide)).1.1,
   ((error_boundary_amended (fun _ => none) [] ⟨"q", "T", 0, "vid"⟩
      "boom" "A" "vid" (by decide)).2.1 (by decide) rfl rfl).2,
   ((error_boundary_amended (fun _ => none) [] ⟨"q", "T", 0, "vid"⟩
      "boom" "A" "vid" (by decide)).2.2 (by decide) rfl rfl).2⟩

/-- Claim C10: the `cached` field of a successful ask response is the
cache-membership test evaluated AFTER the transcript lookup of the same
request: it is true exactly when a video id was given and the lookup
produced a transcript (in particular, a first-time successful fetch
reports `cached: true`), and false only when no id was given or the
fetch failed. -/
theorem cached_flag_after_lookup
    (fetch : String → Option (List TranscriptEntry))
    (llm : String → Except String String) (cache : Cache) (data : AskRequest)
    (ans : String)
    (hq : data.question ≠ "") (hllm : ∀ s, llm s = Except.ok ans) :
    (ask_tutor fetch llm cache data).result
      = .success ans data.videoTitle data.currentTime
          (if data.videoId = "" then false
           else ((get_cached_transcript fetch cache data.videoId).1).isSome) ∧
    (data.videoId ≠ "" → cacheLookup cache data.videoId = none →
      (∃ es, fetch data.videoId = some es) →
      (ask_tutor fetch llm cache data).result
        = .success ans data.videoTitle data.currentTime true) := by
  have h1 : (ask_tutor fetch llm cache data).result
      = .success ans data.videoTitle data.currentTime
          (if data.videoId = "" then false
           else ((get_cached_transcript fetch cache data.videoId).1).isSome) := by
    by_cases hv : data.videoId = ""
    · simp [ask_tutor, hq, hv, hllm]
    · simp [ask_tutor, hq, hv, hllm, lookup_after_get]
  refine ⟨h1, ?_⟩
  rintro hv hm ⟨es, hf⟩
  rw [h1]
  have hg : (get_cached_transcript fetch cache data.videoId).1
      = some (String.intercalate " " (es.map TranscriptEntry.text)) := by
    simp [get_cached_transcript, hm, hf]
  simp [hv, hg]

/-- Claim C10 witness: a first-time successful fetch inside the request
reports `cached: true`. -/
theorem cached_flag_after_lookup_witness :
    (ask_tutor (fun _ => some [⟨"hi", 0⟩]) (fun _ => Except.ok "A") []
        ⟨"q", "T", 5, "vid"⟩).result
      = .success "A" "T" 5
          (if ("vid" : String) = "" then false
           else ((get_cached_transcript (fun _ => some [⟨"hi", 0⟩]) []
              "vid").1).isSome) ∧
    (ask_tutor (fun _ => some [⟨"hi", 0⟩]) (fun _ => Except.ok "A") []
        ⟨"q", "T", 5, "vid"⟩).result = .success "A" "T" 5 true :=
  ⟨(cached_flag_after_lookup (fun _ => some [⟨"hi", 0⟩])
      (fun _ => Except.ok "A") [] ⟨"q", "T", 5, "vid"⟩ "A"
      (by decide) (fun _ => rfl)).1,
   (cached_flag_after_lookup (fun _ => some [⟨"hi", 0⟩])
      (fun _ => Except.ok "A") [] ⟨"q", "T", 5, "vid"⟩ "A"
      (by decide) (fun _ => rfl)).2 (by decide) rfl ⟨[⟨"hi", 0⟩], rfl⟩⟩

end TutorBackend
